import Mathlib

/-!
Verification of the RANSAC channel-consensus engine described by the
specification of the `autoreject` example repository.  The repository's
`src/` holds only the caller (`examples/plot_ransac.py`); the engine
itself (the `autoreject` library's `Ransac`, `RejectLog`, `fit`,
`transform`, `fit_transform`) is not under `src/`, so it is modelled
here from the specification's words.  Signals are rationals, epoched
data is a function from (trial, channel, time) indices to a rational
sample, and channel positions are 3-D points on an integer grid.
-/

namespace AutorejectRansac

/-- A 3-D spatial position of a sensor channel, on an integer grid. -/
abbrev Pos3 := ℤ × ℤ × ℤ

/-- Modelled from the spec: an Epoch Set is an ordered sequence of trials,
each trial a channel-by-time array, all trials sharing one channel count,
one time-sample count and one channel ordering; each channel has a fixed
3-D spatial position (placed on an integer grid).  `data i c t` is the sample of trial `i`,
channel `c`, time `t`. -/
structure EpochSet where
  nTrials : ℕ
  nChannels : ℕ
  nTimes : ℕ
  data : ℕ → ℕ → ℕ → ℚ
  pos : ℕ → Pos3

/-- Modelled from the spec: the configuration record
`{n_resample, sample_fraction, correlation_threshold,
bad_channel_threshold, seed, n_workers}` of the engine. -/
structure Config where
  nResample : ℕ
  sampleFraction : ℚ
  correlationThreshold : ℚ
  badChannelThreshold : ℚ
  seed : ℕ
  nWorkers : ℕ

/-- Modelled from the spec: the error taxonomy `ConfigError`,
`GeometryError` (with the offending stage index), and
`InsufficientCoverageError` (with the offending channel index). -/
inductive RansacError where
  | configError : RansacError
  | geometryError : ℕ → RansacError
  | insufficientCoverageError : ℕ → RansacError
deriving DecidableEq

/-- Modelled from the spec: the sub-sample size `k`, the floor of the
configured fraction of the channel count `C` (computed on the
fraction's numerator and denominator by flooring integer division). -/
def subSampleSize (cfg : Config) (C : ℕ) : ℕ :=
  ((cfg.sampleFraction.num * (C : ℤ)).fdiv (cfg.sampleFraction.den : ℤ)).toNat

/-- Modelled from the spec: an explicit, seedable pseudo-random generator
(a linear congruential step on 32-bit state) routed through the
Sub-sample Selector so that draws are deterministic given a seed. -/
def lcg (s : ℕ) : ℕ := (1664525 * s + 1013904223) % 4294967296

/-- Modelled from the spec: draw `k` channel indices without replacement
from the pool, threading the generator state. -/
def drawSample : ℕ → List ℕ → ℕ → List ℕ × ℕ
  | 0, _, s => ([], s)
  | _ + 1, [], s => ([], s)
  | k + 1, pool, s =>
      let s1 := lcg s
      let i := s1 % pool.length
      let c := pool.getD i 0
      let rest := drawSample k (pool.eraseIdx i) s1
      (c :: rest.1, rest.2)

/-- Modelled from the spec: produce the given number of independent random
subsets of size `k` from the `C` channel indices, one per consensus
round, threading the generator state between rounds. -/
def selectSubsamplesGo (C k : ℕ) : ℕ → ℕ → List (List ℕ)
  | 0, _ => []
  | n + 1, s =>
      let d := drawSample k (List.range C) s
      d.1 :: selectSubsamplesGo C k n d.2

/-- Modelled from the spec: the Sub-sample Selector, seeded. -/
def selectSubsamples (seed C k n : ℕ) : List (List ℕ) :=
  selectSubsamplesGo C k n (lcg seed)

/-- The sub-sample draws of a run: a pure function of the seed, the
channel count, the sample fraction and the round count. -/
def draws (e : EpochSet) (cfg : Config) : List (List ℕ) :=
  selectSubsamples cfg.seed e.nChannels (subSampleSize cfg e.nChannels) cfg.nResample

/-- Componentwise difference of two positions. -/
def sub3 (a b : Pos3) : Pos3 := (a.1 - b.1, a.2.1 - b.2.1, a.2.2 - b.2.2)

/-- Cross product of two 3-D vectors. -/
def cross3 (a b : Pos3) : Pos3 :=
  (a.2.1 * b.2.2 - a.2.2 * b.2.1,
   a.2.2 * b.1 - a.1 * b.2.2,
   a.1 * b.2.1 - a.2.1 * b.1)

/-- Whether a 3-D vector is the zero vector. -/
def isZero3 (a : Pos3) : Bool :=
  decide (a.1 = 0) && decide (a.2.1 = 0) && decide (a.2.2 = 0)

/-- Modelled from the spec: the Spatial Interpolator's geometric input
constraint — at least 3 non-collinear reference positions. -/
def hasThreeNonCollinear (ps : List Pos3) : Bool :=
  ps.any (fun p => ps.any (fun q => ps.any (fun r =>
    !isZero3 (cross3 (sub3 q p) (sub3 r p)))))

/-- Squared Euclidean distance between two positions. -/
def dist2 (a b : Pos3) : ℤ :=
  (a.1 - b.1) ^ 2 + (a.2.1 - b.2.1) ^ 2 + (a.2.2 - b.2.2) ^ 2

/-- Modelled from the spec: a physically motivated, purely geometric
interpolation weight (inverse-distance family), positive and decreasing
with distance. -/
def invWeight (a b : Pos3) : ℚ := 1 / ((1 + dist2 a b : ℤ) : ℚ)

/-- Modelled from the spec: the Spatial Interpolator — estimate channel
`c`'s sample at time `t` as the normalized weighted combination of the
reference channels' samples, with weights derived purely from
geometry. -/
def interpSignal (pos : ℕ → Pos3) (ref : List ℕ) (sig : ℕ → ℕ → ℚ)
    (c t : ℕ) : ℚ :=
  let total := (ref.map (fun g => invWeight (pos c) (pos g))).sum
  (ref.map (fun g => invWeight (pos c) (pos g) * sig g t)).sum / total

/-- Sum of `f` over the time indices `0, …, T-1`. -/
def tsum (T : ℕ) (f : ℕ → ℚ) : ℚ := ((List.range T).map f).sum

/-- Scaled covariance of two signals over `T` time samples:
`T·Σab − Σa·Σb`, a positive multiple of the sample covariance. -/
def scov (T : ℕ) (a b : ℕ → ℚ) : ℚ :=
  (T : ℚ) * tsum T (fun t => a t * b t) - tsum T a * tsum T b

/-- Scaled variance of a signal over `T` time samples. -/
def svar (T : ℕ) (a : ℕ → ℚ) : ℚ := scov T a a

/-- Modelled from the spec: whether a predicted signal agrees with the
observed signal — the correlation coefficient of the mean-centered,
unit-variance-normalized signals exceeds the threshold `θ` (for a
nonnegative threshold this is `scov > 0` and `scov² > θ²·varP·varO`),
with zero-variance (flat) segments an automatic disagreement. -/
def agrees (T : ℕ) (θ : ℚ) (p o : ℕ → ℚ) : Bool :=
  decide (0 < svar T p) && decide (0 < svar T o) && decide (0 < scov T p o) &&
    decide (θ ^ 2 * (svar T p * svar T o) < scov T p o ^ 2)

/-- Count of rounds in which channel `c` is predicted
(selected as non-sampled). -/
def predCount (subs : List (List ℕ)) (c : ℕ) : ℕ :=
  subs.countP (fun S => decide (c ∉ S))

/-- The signal predicted for channel `c` of trial `i` by the round that
sampled the reference set `S`. -/
def predSignal (e : EpochSet) (S : List ℕ) (i c : ℕ) : ℕ → ℚ :=
  fun t => interpSignal e.pos S (e.data i) c t

/-- Count of rounds in which channel `c` of trial `i` was predicted and
the prediction agreed with the observed signal above threshold `θ`. -/
def agreeCount (e : EpochSet) (θ : ℚ) (subs : List (List ℕ)) (i c : ℕ) : ℕ :=
  subs.countP (fun S =>
    decide (c ∉ S) && agrees e.nTimes θ (predSignal e S i c) (e.data i c))

/-- Modelled from the spec: the Consensus Score of a (trial, channel)
pair — agreement-count divided by predicted-count. -/
def score (e : EpochSet) (θ : ℚ) (subs : List (List ℕ)) (i c : ℕ) : ℚ :=
  (agreeCount e θ subs i c : ℚ) / (predCount subs c : ℚ)

/-- Average of a channel's consensus scores across all trials. -/
def avgScore (e : EpochSet) (θ : ℚ) (subs : List (List ℕ)) (c : ℕ) : ℚ :=
  (((List.range e.nTrials).map (fun i => score e θ subs i c)).sum) / (e.nTrials : ℚ)

/-- Modelled from the spec: a channel is globally bad when its score,
averaged across all trials, falls below the bad-channel threshold. -/
def channelBad (e : EpochSet) (cfg : Config) (subs : List (List ℕ)) (c : ℕ) : Bool :=
  decide (avgScore e cfg.correlationThreshold subs c < cfg.badChannelThreshold)

/-- Modelled from the spec: a (trial, channel) entry is bad when that
pair's score falls below the threshold. -/
def segmentBad (e : EpochSet) (cfg : Config) (subs : List (List ℕ)) (i c : ℕ) : Bool :=
  decide (score e cfg.correlationThreshold subs i c < cfg.badChannelThreshold)

/-- Modelled from the spec: the Reject Log — per-epoch bad flags, a
mapping from (trial, channel) to bad, and the list of globally bad
channels. -/
structure RejectLog where
  badEpochs : List Bool
  badLog : ℕ → ℕ → Bool
  badChs : List ℕ

/-- Modelled from the spec and the example script: build the Reject Log;
RANSAC marks only channels, never whole epochs, so every per-epoch flag
is `false`. -/
def mkRejectLog (e : EpochSet) (cfg : Config) (subs : List (List ℕ)) : RejectLog :=
  { badEpochs := List.replicate e.nTrials false
    badLog := fun i c => segmentBad e cfg subs i c
    badChs := (List.range e.nChannels).filter (fun c => channelBad e cfg subs c) }

/-- Modelled from the spec: configuration validation — `k` must satisfy
`3 ≤ k` and `k < C`. -/
def validateConfig (cfg : Config) (C : ℕ) : Bool :=
  decide (3 ≤ subSampleSize cfg C) && decide (subSampleSize cfg C < C)

/-- The first channel, if any, that is sampled in every round and hence
predicted by none. -/
def uncoveredChannel (e : EpochSet) (cfg : Config) : Option ℕ :=
  (List.range e.nChannels).find? (fun c => (draws e cfg).all (fun S => decide (c ∈ S)))

/-- Whether some consensus round's sampled reference set lacks three
non-collinear positions. -/
def roundGeometryBad (e : EpochSet) (cfg : Config) : Bool :=
  (draws e cfg).any (fun S => !hasThreeNonCollinear (S.map e.pos))

/-- Modelled from the spec: `fit` — validate the configuration
(`ConfigError` before any sampling), draw the sub-samples, surface
`InsufficientCoverageError` before scoring begins if some channel is
never predicted, check each round's reference geometry
(`GeometryError`), then score and classify into a Reject Log. -/
def fit (e : EpochSet) (cfg : Config) : Except RansacError RejectLog :=
  if validateConfig cfg e.nChannels then
    match uncoveredChannel e cfg with
    | some c => .error (.insufficientCoverageError c)
    | none =>
        if roundGeometryBad e cfg then .error (.geometryError 0)
        else .ok (mkRejectLog e cfg (draws e cfg))
  else .error .configError

/-- The good (not globally bad) channels of an Epoch Set. -/
def goodChannels (C : ℕ) (bad : List ℕ) : List ℕ :=
  (List.range C).filter (fun c => decide (c ∉ bad))

/-- Modelled from the spec: the Repair Engine's data — bad channels are
overwritten with interpolated estimates from the good channels, other
channels pass through unchanged. -/
def repairData (e : EpochSet) (bad : List ℕ) : ℕ → ℕ → ℕ → ℚ :=
  fun i c t =>
    if decide (c ∈ bad) then
      interpSignal e.pos (goodChannels e.nChannels bad) (e.data i) c t
    else e.data i c t

/-- The repaired Epoch Set: a new object with the same geometry and the
repaired data. -/
def repairEpochs (e : EpochSet) (bad : List ℕ) : EpochSet :=
  { e with data := repairData e bad }

/-- Modelled from the spec: `transform` — check that enough non-collinear
good channels remain (`GeometryError` otherwise), then repair. -/
def transform (e : EpochSet) (bad : List ℕ) : Except RansacError EpochSet :=
  if hasThreeNonCollinear ((goodChannels e.nChannels bad).map e.pos) then
    .ok (repairEpochs e bad)
  else .error (.geometryError 0)

/-- Modelled from the spec: `fit_transform` — the convenience composition
of `fit` and `transform`; failure at either stage aborts and surfaces
that stage's error, with no partial repaired output. -/
def fitTransform (e : EpochSet) (cfg : Config) :
    Except RansacError (RejectLog × EpochSet) :=
  match fit e cfg with
  | .error err => .error err
  | .ok log =>
      match transform e log.badChs with
      | .error err => .error err
      | .ok e2 => .ok (log, e2)

/-- Modelled from the spec: the caller-visible memory of a
`fit_transform` call.  The input Epoch Set buffer is threaded explicitly
through the pipeline and returned alongside the result, so that any
in-place mutation of the input would show as a change in the first
component; the pipeline only ever builds new output buffers. -/
def fitTransformFrame (e : EpochSet) (cfg : Config) :
    EpochSet × Except RansacError (RejectLog × EpochSet) :=
  (e, fitTransform e cfg)

/-- From `src/examples/plot_ransac.py` line 121:
`bad_epochs = [False] * len(epochs)` — the per-epoch bad flags the
example supplies to `RejectLog`. -/
def bad_epochs (n : ℕ) : List Bool := List.replicate n false

/-! ### Concrete fixtures used to instantiate theorems -/

/-- A small concrete Epoch Set: 2 trials, 5 channels, 3 time samples,
channels placed on a parabola so that any three positions are
non-collinear. -/
def testEpochs : EpochSet :=
  { nTrials := 2, nChannels := 5, nTimes := 3,
    data := fun i c t => (i : ℚ) + (c : ℚ) * (t : ℚ),
    pos := fun c => ((c : ℤ), (c : ℤ) ^ 2, 0) }

/-- A concrete configuration with `k = ⌊0.7·5⌋ = 3`, which passes
validation on 5 channels. -/
def testConfig : Config :=
  { nResample := 3, sampleFraction := Rat.divInt 7 10,
    correlationThreshold := Rat.divInt 3 4,
    badChannelThreshold := Rat.divInt 1 2, seed := 0, nWorkers := 1 }

/-- The same configuration with a different worker count. -/
def testConfigW : Config :=
  { nResample := 3, sampleFraction := Rat.divInt 7 10,
    correlationThreshold := Rat.divInt 3 4,
    badChannelThreshold := Rat.divInt 1 2, seed := 0, nWorkers := 4 }

/-- A concrete configuration whose sample fraction yields `k = 2 < 3`. -/
def testConfigSmall : Config :=
  { nResample := 3, sampleFraction := Rat.divInt 1 2,
    correlationThreshold := Rat.divInt 3 4,
    badChannelThreshold := Rat.divInt 1 2, seed := 0, nWorkers := 1 }

/-- A concrete globally-bad-channel list. -/
def testBad : List ℕ := [4]

/-! ### Helper lemmas -/

/-- Counting with a weaker predicate counts at least as much. -/
theorem countP_le_of_imp {α : Type} (l : List α) {p q : α → Bool}
    (h : ∀ a ∈ l, p a = true → q a = true) : l.countP p ≤ l.countP q := by
  induction l with
  | nil => simp
  | cons a l ih =>
      have ih2 := ih fun a ha => h a (List.mem_cons_of_mem _ ha)
      by_cases hp : p a = true
      · rw [List.countP_cons_of_pos _ _ hp,
          List.countP_cons_of_pos _ _ (h a (List.mem_cons_self a l) hp)]
        omega
      · rw [List.countP_cons_of_neg _ _ (by simpa using hp)]
        rw [List.countP_cons]
        omega

/-- Filtering with a weaker predicate keeps at least as many elements. -/
theorem length_filter_le_of_imp {α : Type} (l : List α) {p q : α → Bool}
    (h : ∀ a ∈ l, p a = true → q a = true) :
    (l.filter p).length ≤ (l.filter q).length := by
  rw [← List.countP_eq_length_filter, ← List.countP_eq_length_filter]
  exact countP_le_of_imp l h

/-- Summing a pointwise-smaller function gives a smaller sum. -/
theorem sum_map_le {α : Type} (l : List α) (f g : α → ℚ)
    (h : ∀ a ∈ l, f a ≤ g a) : (l.map f).sum ≤ (l.map g).sum := by
  induction l with
  | nil => simp
  | cons a l ih =>
      simp only [List.map_cons, List.sum_cons]
      exact add_le_add (h a (List.mem_cons_self a l))
        (ih fun a ha => h a (List.mem_cons_of_mem _ ha))

/-- The interpolated estimate reads the signal only at the reference
channels. -/
theorem interpSignal_congr (pos : ℕ → Pos3) (ref : List ℕ)
    (sig sig2 : ℕ → ℕ → ℚ) (c t : ℕ)
    (h : ∀ g ∈ ref, sig g t = sig2 g t) :
    interpSignal pos ref sig c t = interpSignal pos ref sig2 c t := by
  unfold interpSignal
  have : ref.map (fun g => invWeight (pos c) (pos g) * sig g t) =
      ref.map (fun g => invWeight (pos c) (pos g) * sig2 g t) :=
    List.map_congr_left fun g hg => by rw [h g hg]
  rw [this]

/-! ### Claim theorems -/

/-- C1: for a fixed Epoch Set, two runs whose configurations agree on the
seed, the round count, the sample fraction and both thresholds (the
worker count may differ) produce identical sub-sample draws and an
identical `fit_transform` result: the pipeline is deterministic given an
identical seed. -/
theorem fitTransform_deterministic (e : EpochSet) (c1 c2 : Config)
    (h1 : c1.nResample = c2.nResample)
    (h2 : c1.sampleFraction = c2.sampleFraction)
    (h3 : c1.correlationThreshold = c2.correlationThreshold)
    (h4 : c1.badChannelThreshold = c2.badChannelThreshold)
    (h5 : c1.seed = c2.seed) :
    draws e c1 = draws e c2 ∧ fitTransform e c1 = fitTransform e c2 := by
  obtain ⟨n1, f1, t1, b1, s1, w1⟩ := c1
  obtain ⟨n2, f2, t2, b2, s2, w2⟩ := c2
  simp only at h1 h2 h3 h4 h5
  subst h1 h2 h3 h4 h5
  exact ⟨rfl, rfl⟩

/-- Witness for C1: the two fixture configurations differ only in worker
count, and the theorem yields identical draws and results. -/
theorem fitTransform_deterministic_witness :
    testConfig.nResample = testConfigW.nResample ∧
    testConfig.seed = testConfigW.seed ∧
    draws testEpochs testConfig = draws testEpochs testConfigW ∧
    fitTransform testEpochs testConfig = fitTransform testEpochs testConfigW := by
  refine ⟨rfl, rfl, ?_⟩
  exact fitTransform_deterministic testEpochs testConfig testConfigW rfl rfl rfl rfl rfl

/-- C2: a `fit_transform` call leaves the caller-visible input Epoch Set
buffer unchanged — every dimension, every sample of every trial and
channel, and every channel position equals its value before the call;
the repaired output is a separate new value. -/
theorem fitTransform_no_mutation (e : EpochSet) (cfg : Config) :
    (fitTransformFrame e cfg).1 = e ∧
    (fitTransformFrame e cfg).1.data = e.data ∧
    (fitTransformFrame e cfg).1.pos = e.pos ∧
    (fitTransformFrame e cfg).1.nTrials = e.nTrials ∧
    (fitTransformFrame e cfg).1.nChannels = e.nChannels ∧
    (fitTransformFrame e cfg).1.nTimes = e.nTimes :=
  ⟨rfl, rfl, rfl, rfl, rfl, rfl⟩

/-- C5: whenever the sub-sample size `k` satisfies `k ≥ C` or `k < 3`,
both `fit` and `fit_transform` fail with `ConfigError` and nothing else
of the pipeline runs. -/
theorem fit_configError (e : EpochSet) (cfg : Config)
    (h : e.nChannels ≤ subSampleSize cfg e.nChannels ∨
      subSampleSize cfg e.nChannels < 3) :
    fit e cfg = .error .configError ∧
    fitTransform e cfg = .error .configError := by
  have hv : validateConfig cfg e.nChannels = false := by
    simp only [validateConfig, Bool.and_eq_false_iff, decide_eq_false_iff_not]
    omega
  refine ⟨?_, ?_⟩ <;> simp [fit, fitTransform, hv]

/-- Witness for C5: a sample fraction of 1/2 on 5 channels yields
`k = 2 < 3`, and `fit` raises `ConfigError`. -/
theorem fit_configError_witness :
    (testEpochs.nChannels ≤ subSampleSize testConfigSmall testEpochs.nChannels ∨
      subSampleSize testConfigSmall testEpochs.nChannels < 3) ∧
    fit testEpochs testConfigSmall = .error .configError ∧
    fitTransform testEpochs testConfigSmall = .error .configError :=
  ⟨Or.inr (by decide),
   fit_configError testEpochs testConfigSmall (Or.inr (by decide))⟩

/-- C6: on every input, `fit_transform` either returns a complete result
(a Reject Log together with a repaired Epoch Set) or fails with exactly
one of `ConfigError`, `GeometryError`, `InsufficientCoverageError`; an
error carries no partial repaired output. -/
theorem fitTransform_total (e : EpochSet) (cfg : Config) :
    (∃ log e2, fitTransform e cfg = .ok (log, e2)) ∨
    fitTransform e cfg = .error .configError ∨
    (∃ i, fitTransform e cfg = .error (.geometryError i)) ∨
    (∃ c, fitTransform e cfg = .error (.insufficientCoverageError c)) := by
  cases h : fitTransform e cfg with
  | ok p => exact Or.inl ⟨p.1, p.2, rfl⟩
  | error err =>
      cases err with
      | configError => exact Or.inr (Or.inl rfl)
      | geometryError i => exact Or.inr (Or.inr (Or.inl ⟨i, rfl⟩))
      | insufficientCoverageError c => exact Or.inr (Or.inr (Or.inr ⟨c, rfl⟩))

/-- Raising the correlation threshold can only turn agreements into
disagreements: an agreement at the higher threshold is an agreement at
any lower nonnegative threshold. -/
theorem agrees_anti (T : ℕ) {t1 t2 : ℚ} (h0 : 0 ≤ t1) (h12 : t1 ≤ t2)
    (p o : ℕ → ℚ) (h : agrees T t2 p o = true) : agrees T t1 p o = true := by
  simp only [agrees, Bool.and_eq_true, decide_eq_true_eq] at h ⊢
  obtain ⟨⟨⟨hp, ho⟩, hc⟩, h4⟩ := h
  refine ⟨⟨⟨hp, ho⟩, hc⟩, ?_⟩
  have hv : 0 ≤ svar T p * svar T o := le_of_lt (mul_pos hp ho)
  have ht : t1 ^ 2 ≤ t2 ^ 2 := pow_le_pow_left₀ h0 h12 2
  calc t1 ^ 2 * (svar T p * svar T o)
      ≤ t2 ^ 2 * (svar T p * svar T o) := mul_le_mul_of_nonneg_right ht hv
    _ < scov T p o ^ 2 := h4

/-- The agreement count is antitone in the correlation threshold. -/
theorem agreeCount_anti (e : EpochSet) {t1 t2 : ℚ} (h0 : 0 ≤ t1)
    (h12 : t1 ≤ t2) (subs : List (List ℕ)) (i c : ℕ) :
    agreeCount e t2 subs i c ≤ agreeCount e t1 subs i c := by
  apply countP_le_of_imp
  intro S _ hS
  rw [Bool.and_eq_true] at hS ⊢
  exact ⟨hS.1, agrees_anti e.nTimes h0 h12 _ _ hS.2⟩

/-- The consensus score is antitone in the correlation threshold. -/
theorem score_anti (e : EpochSet) {t1 t2 : ℚ} (h0 : 0 ≤ t1) (h12 : t1 ≤ t2)
    (subs : List (List ℕ)) (i c : ℕ) :
    score e t2 subs i c ≤ score e t1 subs i c := by
  unfold score
  rcases Nat.eq_zero_or_pos (predCount subs c) with hp | hp
  · rw [hp]
    simp
  · have hq : (0 : ℚ) < (predCount subs c : ℚ) := by exact_mod_cast hp
    exact (div_le_div_iff_of_pos_right hq).mpr
      (by exact_mod_cast agreeCount_anti e h0 h12 subs i c)

/-- The trial-averaged score is antitone in the correlation threshold. -/
theorem avgScore_anti (e : EpochSet) {t1 t2 : ℚ} (h0 : 0 ≤ t1)
    (h12 : t1 ≤ t2) (subs : List (List ℕ)) (c : ℕ) :
    avgScore e t2 subs c ≤ avgScore e t1 subs c := by
  unfold avgScore
  rcases Nat.eq_zero_or_pos e.nTrials with h | h
  · rw [h]
    simp
  · have hq : (0 : ℚ) < (e.nTrials : ℚ) := by exact_mod_cast h
    exact (div_le_div_iff_of_pos_right hq).mpr
      (sum_map_le _ _ _ fun i _ => score_anti e h0 h12 subs i c)

/-- C7: for fixed epochs, seed and otherwise identical configuration,
increasing the correlation threshold (from a nonnegative value) never
shrinks the bad classification: every channel classified globally bad at
the lower threshold is still bad at the higher one, the count of bad
channels does not decrease, and every (trial, channel) segment marked
bad stays marked bad. -/
theorem threshold_monotonicity (e : EpochSet) (cfg : Config) (t2 : ℚ)
    (h0 : 0 ≤ cfg.correlationThreshold)
    (h12 : cfg.correlationThreshold ≤ t2) :
    (∀ c, channelBad e cfg (draws e cfg) c = true →
      channelBad e { cfg with correlationThreshold := t2 }
        (draws e { cfg with correlationThreshold := t2 }) c = true) ∧
    (mkRejectLog e cfg (draws e cfg)).badChs.length ≤
      (mkRejectLog e { cfg with correlationThreshold := t2 }
        (draws e { cfg with correlationThreshold := t2 })).badChs.length ∧
    (∀ i c, (mkRejectLog e cfg (draws e cfg)).badLog i c = true →
      (mkRejectLog e { cfg with correlationThreshold := t2 }
        (draws e { cfg with correlationThreshold := t2 })).badLog i c = true) := by
  have hch : ∀ c, channelBad e cfg (draws e cfg) c = true →
      channelBad e { cfg with correlationThreshold := t2 }
        (draws e { cfg with correlationThreshold := t2 }) c = true := by
    intro c hc
    simp only [channelBad, decide_eq_true_eq] at hc ⊢
    exact lt_of_le_of_lt (avgScore_anti e h0 h12 (draws e cfg) c) hc
  refine ⟨hch, ?_, ?_⟩
  · show ((List.range e.nChannels).filter
        (fun c => channelBad e cfg (draws e cfg) c)).length ≤
      ((List.range e.nChannels).filter
        (fun c => channelBad e { cfg with correlationThreshold := t2 }
          (draws e { cfg with correlationThreshold := t2 }) c)).length
    exact length_filter_le_of_imp _ fun c _ h => hch c h
  · intro i c hc
    show segmentBad e { cfg with correlationThreshold := t2 }
      (draws e { cfg with correlationThreshold := t2 }) i c = true
    have hc2 : segmentBad e cfg (draws e cfg) i c = true := hc
    simp only [segmentBad, decide_eq_true_eq] at hc2 ⊢
    exact lt_of_le_of_lt (score_anti e h0 h12 (draws e cfg) i c) hc2

/-- Witness for C7: raising the fixture's correlation threshold from 3/4
to 9/10 does not decrease the number of channels classified bad. -/
theorem threshold_monotonicity_witness :
    (0 ≤ testConfig.correlationThreshold ∧
      testConfig.correlationThreshold ≤ Rat.divInt 9 10) ∧
    (mkRejectLog testEpochs testConfig (draws testEpochs testConfig)).badChs.length ≤
      (mkRejectLog testEpochs { testConfig with correlationThreshold := Rat.divInt 9 10 }
        (draws testEpochs
          { testConfig with correlationThreshold := Rat.divInt 9 10 })).badChs.length :=
  ⟨⟨by decide, by decide⟩,
   (threshold_monotonicity testEpochs testConfig (Rat.divInt 9 10)
     (by decide) (by decide)).2.1⟩

/-- A channel kept by `goodChannels` is not in the bad set. -/
theorem goodChannels_not_bad {C : ℕ} {bad : List ℕ} {g : ℕ}
    (hg : g ∈ goodChannels C bad) : g ∉ bad := by
  have h := (List.mem_filter.mp hg).2
  simpa using h

/-- Repair leaves channels outside the bad set untouched. -/
theorem repairData_stable (e : EpochSet) (bad : List ℕ) (i g t : ℕ)
    (hg : g ∉ bad) : repairData e bad i g t = e.data i g t := by
  simp [repairData, hg]

/-- Repairing twice with the same bad set computes the same data as
repairing once: the second pass interpolates from good channels, which
the first pass left untouched. -/
theorem repairData_idem (e : EpochSet) (bad : List ℕ) :
    repairData (repairEpochs e bad) bad = repairData e bad := by
  funext i c t
  by_cases hc : c ∈ bad
  · show (if decide (c ∈ bad) = true then
        interpSignal e.pos (goodChannels e.nChannels bad) (repairData e bad i) c t
      else repairData e bad i c t) =
      repairData e bad i c t
    rw [if_pos (by simpa using hc)]
    have hcong : interpSignal e.pos (goodChannels e.nChannels bad)
        (repairData e bad i) c t =
        interpSignal e.pos (goodChannels e.nChannels bad) (e.data i) c t :=
      interpSignal_congr _ _ _ _ _ _ fun g hg =>
        repairData_stable e bad i g t (goodChannels_not_bad hg)
    rw [hcong, repairData, if_pos (by simpa using hc)]
  · show (if decide (c ∈ bad) = true then
        interpSignal e.pos (goodChannels e.nChannels bad) (repairData e bad i) c t
      else repairData e bad i c t) =
      repairData e bad i c t
    rw [if_neg (by simpa using hc)]

/-- Repairing an already-repaired Epoch Set with the same bad set is the
identity on the repaired Epoch Set. -/
theorem repairEpochs_idem (e : EpochSet) (bad : List ℕ) :
    repairEpochs (repairEpochs e bad) bad = repairEpochs e bad := by
  show EpochSet.mk e.nTrials e.nChannels e.nTimes
      (repairData (repairEpochs e bad) bad) e.pos =
    EpochSet.mk e.nTrials e.nChannels e.nTimes (repairData e bad) e.pos
  rw [repairData_idem]

/-- C8: repair is idempotent — applying `transform` to an Epoch Set that
has already been repaired, with the same bad-channel set, returns that
Epoch Set exactly (the model has no floating-point noise). -/
theorem transform_idempotent (e : EpochSet) (bad : List ℕ) (e2 : EpochSet)
    (h : transform e bad = .ok e2) :
    transform e2 bad = .ok e2 := by
  unfold transform at h
  by_cases hg :
      hasThreeNonCollinear ((goodChannels e.nChannels bad).map e.pos) = true
  · rw [if_pos hg] at h
    have he2 : e2 = repairEpochs e bad := by
      cases h
      rfl
    subst he2
    show (if hasThreeNonCollinear
          ((goodChannels e.nChannels bad).map e.pos) = true then
        Except.ok (repairEpochs (repairEpochs e bad) bad)
      else Except.error (RansacError.geometryError 0)) =
      Except.ok (repairEpochs e bad)
    rw [if_pos hg, repairEpochs_idem]
  · rw [if_neg hg] at h
    exact absurd h (by simp)

/-- Witness for C8: the fixture Epoch Set with bad channel 4 repairs
successfully, and transforming the repaired result returns it
unchanged. -/
theorem transform_idempotent_witness :
    transform testEpochs testBad = .ok (repairEpochs testEpochs testBad) ∧
    transform (repairEpochs testEpochs testBad) testBad =
      .ok (repairEpochs testEpochs testBad) :=
  ⟨rfl,
   transform_idempotent testEpochs testBad (repairEpochs testEpochs testBad) rfl⟩

/-- C9: a trial with zero bad channels passes through the Repair Engine
unchanged — every channel's signal in the output equals the input, and
the repaired Epoch Set equals the input Epoch Set. -/
theorem repair_passthrough (e : EpochSet) (i c t : ℕ) :
    repairData e [] i c t = e.data i c t ∧ repairEpochs e [] = e := by
  constructor
  · simp [repairData]
  · have hd : repairData e [] = e.data := by
      funext i c t
      simp [repairData]
    cases e
    simp [repairEpochs, hd]

/-- C3: the Consensus Score of a (trial, channel) pair equals the count
of rounds whose prediction of that channel agreed with the observed
signal above the correlation threshold, divided by the count of rounds
that predicted the channel; whenever the pair is predicted at least
once the score lies in `[0, 1]`; and a zero-variance (flat) observed
segment counts as a disagreement in every round that predicts it. -/
theorem consensus_score_spec (e : EpochSet) (θ : ℚ) (subs : List (List ℕ))
    (i c : ℕ) (hp : 0 < predCount subs c) :
    score e θ subs i c = (agreeCount e θ subs i c : ℚ) / (predCount subs c : ℚ) ∧
    agreeCount e θ subs i c ≤ predCount subs c ∧
    0 ≤ score e θ subs i c ∧ score e θ subs i c ≤ 1 ∧
    (svar e.nTimes (e.data i c) = 0 → agreeCount e θ subs i c = 0) := by
  have hle : agreeCount e θ subs i c ≤ predCount subs c := by
    apply countP_le_of_imp
    intro S _ hS
    rw [Bool.and_eq_true] at hS
    exact hS.1
  have hppos : (0 : ℚ) < (predCount subs c : ℚ) := by exact_mod_cast hp
  refine ⟨rfl, hle, ?_, ?_, ?_⟩
  · exact div_nonneg (Nat.cast_nonneg _) (Nat.cast_nonneg _)
  · rw [score, div_le_one hppos]
    exact_mod_cast hle
  · intro hflat
    rw [agreeCount, List.countP_eq_zero]
    intro S _
    simp [agrees, hflat]

/-- Witness for C3: with one sub-sample round `[0, 1, 2]`, channel 3 is
predicted once, so its score is well defined and bounded by 1. -/
theorem consensus_score_spec_witness :
    0 < predCount [[0, 1, 2]] 3 ∧
    score testEpochs (Rat.divInt 3 4) [[0, 1, 2]] 0 3 ≤ 1 :=
  ⟨by decide,
   (consensus_score_spec testEpochs (Rat.divInt 3 4) [[0, 1, 2]] 0 3
     (by decide)).2.2.2.1⟩

/-- C4: under a validated configuration, if `fit` completes then every
(trial, channel) pair is predicted (left non-sampled) by at least one
sub-sample round, and if some channel would be predicted by no round
then `fit` surfaces `InsufficientCoverageError` (before any scoring:
the error result carries no scores or log). -/
theorem coverage_invariant (e : EpochSet) (cfg : Config)
    (hval : validateConfig cfg e.nChannels = true) :
    (∀ log, fit e cfg = .ok log →
      ∀ i, i < e.nTrials → ∀ ch, ch < e.nChannels →
        ∃ S ∈ draws e cfg, ch ∉ S) ∧
    ((∃ ch, ch < e.nChannels ∧ ∀ S ∈ draws e cfg, ch ∈ S) →
      ∃ ch, fit e cfg = .error (.insufficientCoverageError ch)) := by
  constructor
  · intro log hfit i _ ch hch
    cases hu : uncoveredChannel e cfg with
    | some c0 => simp [fit, hval, hu] at hfit
    | none =>
        unfold uncoveredChannel at hu
        have h2 := List.find?_eq_none.mp hu ch (List.mem_range.mpr hch)
        simp only [List.all_eq_true, decide_eq_true_eq] at h2
        push_neg at h2
        obtain ⟨S, hS, hnot⟩ := h2
        exact ⟨S, hS, hnot⟩
  · rintro ⟨ch, hch, hall⟩
    cases hu : uncoveredChannel e cfg with
    | some c0 =>
        refine ⟨c0, ?_⟩
        simp [fit, hval, hu]
    | none =>
        exfalso
        unfold uncoveredChannel at hu
        have h2 := List.find?_eq_none.mp hu ch (List.mem_range.mpr hch)
        apply h2
        simp only [List.all_eq_true, decide_eq_true_eq]
        exact hall

/-- Witness for C4: the fixture configuration passes validation on the
fixture Epoch Set, so the coverage guarantee applies to it. -/
theorem coverage_invariant_witness :
    validateConfig testConfig testEpochs.nChannels = true ∧
    ((∃ ch, ch < testEpochs.nChannels ∧
        ∀ S ∈ draws testEpochs testConfig, ch ∈ S) →
      ∃ ch, fit testEpochs testConfig =
        .error (.insufficientCoverageError ch)) :=
  ⟨by decide, (coverage_invariant testEpochs testConfig (by decide)).2⟩

/-- C10: the per-epoch bad flags supplied to the `RejectLog` are uniformly
`False` — both the example script's `bad_epochs = [False] * len(epochs)`
and the per-epoch flags of the Reject Log built by the engine; RANSAC
marks only channels, never whole epochs. -/
theorem bad_epochs_all_false (n : ℕ) (e : EpochSet) (cfg : Config)
    (subs : List (List ℕ)) :
    bad_epochs n = List.replicate n false ∧
    (bad_epochs n).all (fun b => !b) = true ∧
    (mkRejectLog e cfg subs).badEpochs.all (fun b => !b) = true := by
  refine ⟨rfl, ?_, ?_⟩ <;>
  · simp only [bad_epochs, mkRejectLog, List.all_eq_true]
    intro b hb
    simp [List.eq_of_mem_replicate hb]

end AutorejectRansac
